import Mathlib

/-!
Verification development for the WWZ Energy integration
(`custom_components/wwz_energy`): the API client's session state machine
(`api.py`) and the update coordinator's reconciliation and statistics
backfill (`coordinator.py`), shallowly embedded in Lean.

Numeric values are modelled as rationals; timestamps are epoch
milliseconds as integers.  The fixed reference time zone (Europe/Zurich)
has a whole-hour UTC offset in both winter and summer, so truncating a
timestamp to the top of its local hour coincides with flooring the epoch
millisecond count to a multiple of 3 600 000; hours are therefore
identified with their floor-division index.
-/

namespace Wwz

/-- Python's `round(x, 3)`: round to 3 decimal places.  (Ties are rounded
half-up here, while CPython rounds half-to-even; no property below
depends on the tie-breaking rule.) -/
def round3 (q : ℚ) : ℚ := (round (q * 1000) : ℤ) / 1000

/-- The hour index of an epoch-millisecond timestamp: `datetime.fromtimestamp`
followed by `.replace(minute=0, second=0, microsecond=0)` in a whole-hour
offset zone, i.e. floor division by 3 600 000 (`Int` division is Euclidean,
hence floor for this positive divisor). -/
def hourOf (ms : Int) : Int := ms / 3600000

/-- One hourly sample from `getDiagramValues`: entries of `data["values"]`,
each a dict with keys `date` (epoch ms), `value`, `status`. -/
structure Reading where
  date : Int
  value : ℚ
  status : Int
deriving DecidableEq

/-- `[v for v in values if v.get("status") == 0]` (coordinator.py:61,71). -/
def validOf (vs : List Reading) : List Reading :=
  vs.filter (fun v => v.status == 0)

/-- `sorted(values, key=lambda x: x["date"])` (coordinator.py:103):
a stable sort by timestamp. -/
def sortByDate (vs : List Reading) : List Reading :=
  vs.mergeSort (fun a b => a.date ≤ b.date)

/-- The `for v in reversed(valid_values): if v["date"] <= now_ms: ... break`
scan (coordinator.py:79-83): value of the first entry of the reversed list
whose timestamp is at most `nowMs`, `none` when the loop finds nothing. -/
def lastHourOf (valid : List Reading) (nowMs : Int) : Option ℚ :=
  (valid.reverse.find? (fun v => v.date ≤ nowMs)).map (fun v => v.value)

/-- Spec-side definition (§8): "`last_hour` equals the value of the
chronologically latest valid reading with timestamp ≤ now" — the last,
in chronological order, valid reading not in the future. -/
def specLastHour (vs : List Reading) (nowMs : Int) : Option ℚ :=
  (((sortByDate (validOf vs)).filter (fun v => v.date ≤ nowMs)).getLast?).map
    (fun v => v.value)

/-- A row passed to `async_add_external_statistics` (coordinator.py:126-132):
`start` is the hour index of the reading, `state` the rounded hourly value,
`sum` the rounded running total. -/
structure StatisticData where
  start : Int
  state : ℚ
  sum : ℚ
deriving DecidableEq

/-- Outcome of one `_insert_statistics` run: which hour (if any) the
baseline query `statistics_during_period(first_dt - 1h, first_dt, …)`
covered, and the points handed to the upsert. -/
structure InsertResult where
  baselineQuery : Option Int
  points : List StatisticData
deriving DecidableEq

/-- The external statistics store restricted to this one series: the
stored cumulative `sum` per hour index, if that hour has a row. -/
def Store : Type := Int → Option ℚ

def emptyStore : Store := fun _ => none

/-- The recorder interface as seen by `_insert_statistics`: the baseline
query may raise, and the upsert call may raise. -/
structure Recorder where
  query : Int → Except String (Option ℚ)
  upsertError : Option String

/-- A recorder backed by a pure store: queries return the stored sum for
the requested hour and never fail, and the upsert never fails. -/
def recorderOfStore (store : Store) : Recorder :=
  { query := fun h => .ok (store h), upsertError := none }

/-- The accumulation loop of `_insert_statistics` (coordinator.py:121-132):
walk the sorted readings, set `cumulative_sum = round(cumulative_sum + value, 3)`,
and emit one row per reading at its hour with `state = round(value, 3)`. -/
def buildPoints : List Reading → ℚ → List StatisticData
  | [], _ => []
  | v :: rest, cum =>
    let cum2 := round3 (cum + v.value)
    { start := hourOf v.date, state := round3 v.value, sum := cum2 }
      :: buildPoints rest cum2

/-- `_insert_statistics` (coordinator.py:92-149) against a fallible
recorder.  An empty batch returns before any store access (line 99-100);
otherwise the readings are sorted by date, the hour before the earliest
reading is queried for its stored `sum` (`base_sum`, 0 when no row or a
falsy stored value), the points are accumulated from that baseline, and
the batch is upserted.  A query or upsert error propagates unwrapped. -/
def insertStatisticsE (values : List Reading) (rec : Recorder) :
    Except String InsertResult :=
  match sortByDate values with
  | [] => .ok { baselineQuery := none, points := [] }
  | v0 :: rest =>
    let firstHour := hourOf v0.date
    match rec.query (firstHour - 1) with
    | .error e => .error e
    | .ok entry =>
      let baseSum : ℚ := entry.getD 0
      let pts := buildPoints (v0 :: rest) baseSum
      match rec.upsertError with
      | some e => .error e
      | none => .ok { baselineQuery := some (firstHour - 1), points := pts }

/-- `_insert_statistics` against a pure store (its queries never fail). -/
def insertStatistics (values : List Reading) (store : Store) : InsertResult :=
  (insertStatisticsE values (recorderOfStore store)).toOption.getD
    { baselineQuery := none, points := [] }

/-- Effect of `async_add_external_statistics` on the store: overwrite the
row of each submitted point's hour with that point's `sum` (idempotent
upsert keyed by `start`). -/
def applyUpsert (store : Store) (pts : List StatisticData) : Store :=
  pts.foldl (fun st p => fun h => if h = p.start then some p.sum else st h) store

/-- The dict returned by `get_daily_data` (api.py:241-245): the raw value
list, the raw all-statuses total `round(sum(v.get("value", 0)), 3)`, and
the unit string (`"kWh"` when absent). -/
structure FetchData where
  values : List Reading
  daily_total : ℚ
  unit : String
deriving DecidableEq

/-- The dict returned by `_async_update_data` (coordinator.py:90): the
values of the fetch actually used, the recomputed validity-filtered
`daily_total`, the `last_hour` value, and the represented calendar date
(`data_date.strftime("%Y-%m-%d")`), modelled as a day index in the
reference zone (wall-clock subtraction of one day decrements it). -/
structure Snapshot where
  values : List Reading
  daily_total : ℚ
  last_hour : Option ℚ
  data_date : Int
  unit : String
deriving DecidableEq

/-- The tail of `_async_update_data` (coordinator.py:73-90), run once on
whichever fetch supplied the data actually used: recompute `daily_total`
from the valid subset, scan for `last_hour`, stamp the represented date,
and run the statistics step — which is not guarded by any `try`, so its
error propagates and fails the cycle. -/
def finishUpdate (data : FetchData) (dataDate nowMs : Int) (rec : Recorder) :
    Except String (Snapshot × InsertResult) :=
  let valid := validOf data.values
  match insertStatisticsE valid rec with
  | .error e => .error e
  | .ok ir =>
    .ok ({ values := data.values,
           daily_total := round3 ((valid.map (fun v => v.value)).sum),
           last_hour := lastHourOf valid nowMs,
           data_date := dataDate, unit := data.unit }, ir)

/-- `_async_update_data` (coordinator.py:43-90).  `fetch` is
`api_client.get_daily_data` keyed by the calendar day of the requested
date; `today` is the day index of `now` and `nowMs` its epoch
milliseconds; `meterId` is `api_client.meter_id` (`""` models a falsy
value).  Today's readings are fetched and filtered to `status == 0`;
when no valid reading remains, yesterday is fetched and filtered
instead, and the represented date moves to yesterday. -/
def asyncUpdateData (fetch : Int → Except String FetchData)
    (today nowMs : Int) (meterId : String) (rec : Recorder) :
    Except String (Snapshot × InsertResult) :=
  if meterId = "" then .error "No meter ID available"
  else
    match fetch today with
    | .error e => .error ("Error fetching WWZ data: " ++ e)
    | .ok data0 =>
      if (validOf data0.values).isEmpty then
        match fetch (today - 1) with
        | .error e => .error ("Error fetching yesterday's data: " ++ e)
        | .ok data1 => finishUpdate data1 (today - 1) nowMs rec
      else finishUpdate data0 today nowMs rec

/-!  The API client (`api.py`).  Network interactions are supplied as
oracles describing each HTTP call's outcome; the client's mutable fields
(`_token`, `_contract_account_id`, `_meter_number`, `_meter_id`) are
threaded explicitly. -/

/-- The mutable authentication fields of `WwzApiClient` (api.py:56-59),
all `None` on construction. -/
structure ClientState where
  token : Option String
  contract_account_id : Option String
  meter_number : Option String
  meter_id : Option String
deriving DecidableEq

/-- A fresh client: all fields `None`. -/
def initialState : ClientState :=
  { token := none, contract_account_id := none,
    meter_number := none, meter_id := none }

/-- Outcome of the login POST (api.py:82-104): a transport error, a
non-200 status, or a JSON body carrying `frontEndMessage.messageType`,
`frontEndMessage.message`, and `data` (the opaque token). -/
inductive LoginStep2 where
  | transportError (e : String)
  | badStatus (code : Nat)
  | ok (messageType : Option Int) (message : Option String) (data : Option String)
deriving DecidableEq

/-- Oracles for the six network calls a `login()` makes, in order:
bootstrap GET, credential POST, validation POST, then the warm-up's
contractAccounts (list of `caId` fields), getMeterPoints (list of
`meterPointNumber` fields) and getMeterPointId (the `meterId` field).
`some e` / `.error e` marks a transport failure of that call. -/
structure LoginEnv where
  step1 : Option String
  step2 : LoginStep2
  step3 : Option String
  stepAccounts : Except String (List (Option String))
  stepMeterPoints : Except String (List (Option String))
  stepMeterId : Except String (Option String)

/-- `_setup_meter_context` (api.py:119-164): contractAccounts →
getMeterPoints → getMeterPointId, committing each discovered identifier
as soon as its call succeeds; `_meter_id` becomes
`str(body.get("data", {}).get("meterId", ""))` on the final step. -/
def setupMeterContext (env : LoginEnv) (st : ClientState) :
    Except String Unit × ClientState :=
  match env.stepAccounts with
  | .error e => (.error ("Failed to get contract accounts: " ++ e), st)
  | .ok accounts =>
    match accounts with
    | [] => (.error "No contract accounts found", st)
    | a :: _ =>
      let st1 := { st with contract_account_id := a }
      match env.stepMeterPoints with
      | .error e => (.error ("Failed to get meter points: " ++ e), st1)
      | .ok contracts =>
        match contracts with
        | [] => (.error "No meter points found", st1)
        | c :: _ =>
          let st2 := { st1 with meter_number := c }
          match env.stepMeterId with
          | .error e => (.error ("Failed to get meter point ID: " ++ e), st2)
          | .ok mid => (.ok (), { st2 with meter_id := some (mid.getD "") })

/-- `login` (api.py:70-117): bootstrap GET, credential POST (committing
`_token` on a 200 body whose `messageType` is `0`, before the later
steps run), validation POST, then the warm-up.  Each failure aborts the
call, leaving whatever fields earlier steps already committed. -/
def login (env : LoginEnv) (st : ClientState) :
    Except String Unit × ClientState :=
  match env.step1 with
  | some e => (.error ("Failed to obtain session: " ++ e), st)
  | none =>
    match env.step2 with
    | .transportError e => (.error ("Connection error during login: " ++ e), st)
    | .badStatus code => (.error ("Login failed with status " ++ toString code), st)
    | .ok messageType message data =>
      if messageType = some 0 then
        let st1 := { st with token := data }
        match env.step3 with
        | some e => (.error ("Validation failed: " ++ e), st1)
        | none => setupMeterContext env st1
      else
        (.error ("Login failed: " ++ message.getD "unknown error"), st)

/-- The nested `data` payload of a `getDiagramValues` response body. -/
structure InnerData where
  values : List Reading
  unit : Option String
deriving DecidableEq

/-- A `getDiagramValues` JSON body: optional `data` payload and optional
`frontEndMessage.message` text. -/
structure ApiBody where
  data : Option InnerData
  frontEndMessage : Option String
deriving DecidableEq

/-- Outcome of one GET to the data endpoint (api.py:194-203): transport
error, non-200 status with its response text, or a JSON body (possibly a
falsy/null document, modelled as `none`). -/
inductive HttpResult where
  | transportError (e : String)
  | badStatus (code : Nat) (body : String)
  | ok (body : Option ApiBody)
deriving DecidableEq

/-- Map an HTTP outcome to the raised `WwzApiError` or the parsed body;
`tag` is empty for the first request and marks the re-auth replay. -/
def parseHttp (tag : String) : HttpResult → Except String (Option ApiBody)
  | .transportError e => .error ("Connection error: " ++ e)
  | .badStatus code body =>
      .error ("API request failed" ++ tag ++ " (" ++ toString code ++ "): "
        ++ String.mk (body.data.take 200))
  | .ok body => .ok body

/-- Substring containment on character lists (Python's `in` on `str`). -/
def listContains (pat : List Char) : List Char → Bool
  | [] => pat.isEmpty
  | c :: rest => pat.isPrefixOf (c :: rest) || listContains pat rest

/-- `pat in s` for strings. -/
def strContainsSub (s pat : String) : Bool := listContains pat.data s.data

/-- `str.lower()`, character by character (ASCII case folding suffices
for the fixed patterns matched against it). -/
def lowerStr (s : String) : String := String.mk (s.data.map Char.toLower)

/-- The session-expiry heuristic (api.py:214): the lowercased message
contains "not logged in" or "unauthorized". -/
def expirySignal (msg : String) : Bool :=
  strContainsSub (lowerStr msg) "not logged in"
    || strContainsSub (lowerStr msg) "unauthorized"

/-- `data.get("frontEndMessage", {}).get("message", "")` guarded by
`if data else ""` (api.py:209-213). -/
def expiryMsgText : Option ApiBody → String
  | none => ""
  | some b => b.frontEndMessage.getD ""

/-- The message attached to the terminal no-data error (api.py:231-235):
`"unknown"` when the field is missing, `"empty response"` on a falsy body. -/
def noDataMsg : Option ApiBody → String
  | none => "empty response"
  | some b => b.frontEndMessage.getD "unknown"

/-- Build `get_daily_data`'s result dict from a payload (api.py:238-245). -/
def fetchOf (inner : InnerData) : FetchData :=
  { values := inner.values,
    daily_total := round3 ((inner.values.map (fun v => v.value)).sum),
    unit := inner.unit.getD "kWh" }

/-- Oracles for one `get_daily_data` call: the first data request, the
network behaviour of the internal re-login (if reached), and the replay
request (if reached). -/
structure DailyEnv where
  req1 : HttpResult
  loginEnv : LoginEnv
  req2 : HttpResult

/-- How many internal `login()` calls and data-endpoint requests one
`get_daily_data` call performed. -/
structure DailyTrace where
  logins : Nat
  requests : Nat
deriving DecidableEq

/-- `get_daily_data` (api.py:171-245): issue the request; when the body
has no `data` payload and the embedded message matches the expiry
heuristic, run one internal `login()` and replay the request once; a
payload still missing afterwards (or missing without an expiry signal)
raises `WwzApiError("API returned no data: …")`.  Returns the result,
the client state after any internal login, and the call trace. -/
def getDailyData (env : DailyEnv) (st : ClientState) :
    (Except String FetchData × ClientState) × DailyTrace :=
  match parseHttp "" env.req1 with
  | .error e => ((.error e, st), { logins := 0, requests := 1 })
  | .ok body1 =>
    match body1.bind (fun b => b.data) with
    | some inner => ((.ok (fetchOf inner), st), { logins := 0, requests := 1 })
    | none =>
      if expirySignal (expiryMsgText body1) then
        match login env.loginEnv st with
        | (.error e, st1) => ((.error e, st1), { logins := 1, requests := 1 })
        | (.ok _, st1) =>
          match parseHttp " after re-auth" env.req2 with
          | .error e => ((.error e, st1), { logins := 1, requests := 2 })
          | .ok body2 =>
            match body2.bind (fun b => b.data) with
            | some inner =>
                ((.ok (fetchOf inner), st1), { logins := 1, requests := 2 })
            | none =>
                ((.error ("API returned no data: " ++ noDataMsg body2), st1),
                  { logins := 1, requests := 2 })
      else
        ((.error ("API returned no data: " ++ noDataMsg body1), st),
          { logins := 0, requests := 1 })

/-!  Spec-side definitions, for refinement comparisons only. -/

/-- Spec §4.2: "accumulating `runningSum += reading.value` (rounded to 3
decimals after each addition)" — the running sums the walk should emit,
starting from the baseline. -/
def specRunningSums (base : ℚ) : List ℚ → List ℚ
  | [] => []
  | v :: rest =>
    let c := round3 (base + v)
    c :: specRunningSums c rest

/-!  Helper lemmas. -/

theorem insertStatisticsE_recorderOfStore (values : List Reading) (store : Store) :
    insertStatisticsE values (recorderOfStore store) =
      .ok (insertStatistics values store) := by
  cases h : sortByDate values with
  | nil => simp [insertStatistics, insertStatisticsE, h, Except.toOption]
  | cons v0 rest =>
      simp [insertStatistics, insertStatisticsE, h, recorderOfStore, Except.toOption]

theorem buildPoints_map_start (l : List Reading) (cum : ℚ) :
    (buildPoints l cum).map (fun p => p.start) = l.map (fun v => hourOf v.date) := by
  induction l generalizing cum with
  | nil => rfl
  | cons v rest ih => simp [buildPoints, ih]

theorem buildPoints_map_sum (l : List Reading) (cum : ℚ) :
    (buildPoints l cum).map (fun p => p.sum) =
      specRunningSums cum (l.map (fun v => v.value)) := by
  induction l generalizing cum with
  | nil => rfl
  | cons v rest ih => simp [buildPoints, specRunningSums, ih]

theorem applyUpsert_apply_of_not_mem (store : Store) (pts : List StatisticData)
    (h : Int) (hh : h ∉ pts.map (fun p => p.start)) :
    applyUpsert store pts h = store h := by
  induction pts generalizing store with
  | nil => rfl
  | cons p rest ih =>
      simp only [List.map_cons, List.mem_cons, not_or] at hh
      have step : applyUpsert store (p :: rest)
          = applyUpsert (fun h2 => if h2 = p.start then some p.sum else store h2) rest := rfl
      rw [step, ih _ hh.2]
      simp [hh.1]

theorem find?_reverse_eq_getLast?_filter {α : Type} (p : α → Bool) (l : List α) :
    l.reverse.find? p = (l.filter p).getLast? := by
  induction l using List.reverseRecOn with
  | nil => rfl
  | append_singleton l a ih =>
      rw [List.reverse_append, List.filter_append, List.reverse_singleton,
        List.singleton_append]
      cases hpa : p a with
      | true =>
          rw [List.find?_cons_of_pos _ hpa]
          have hf : List.filter p [a] = [a] := by simp [hpa]
          rw [hf, List.getLast?_concat]
      | false =>
          rw [List.find?_cons_of_neg _ (by simp [hpa]), ih]
          have hf : List.filter p [a] = [] := by simp [hpa]
          rw [hf, List.append_nil]

theorem sortByDate_pairwise (vs : List Reading) :
    (sortByDate vs).Pairwise (fun a b => a.date ≤ b.date) := by
  have h := @List.sorted_mergeSort _ (fun a b : Reading => decide (a.date ≤ b.date))
    (by intro a b c hab hbc; simp only [decide_eq_true_eq] at hab hbc ⊢; omega)
    (by intro a b; simpa using Int.le_total a.date b.date)
    vs
  exact h.imp (fun hab => by simpa using hab)

theorem hourOf_mono {a b : Int} (h : a ≤ b) : hourOf a ≤ hourOf b :=
  Int.ediv_le_ediv (by norm_num) h

theorem sortByDate_head_min (vs : List Reading) (v0 : Reading) (rest : List Reading)
    (h : sortByDate vs = v0 :: rest) :
    ∀ v ∈ v0 :: rest, v0.date ≤ v.date := by
  have hp := sortByDate_pairwise vs
  rw [h] at hp
  intro v hv
  rcases List.mem_cons.mp hv with hv0 | hvr
  · simp [hv0]
  · exact (List.pairwise_cons.mp hp).1 v hvr

theorem insertStatistics_cons (vals : List Reading) (store : Store)
    (v0 : Reading) (rest : List Reading) (h : sortByDate vals = v0 :: rest) :
    insertStatistics vals store =
      { baselineQuery := some (hourOf v0.date - 1),
        points := buildPoints (v0 :: rest) ((store (hourOf v0.date - 1)).getD 0) } := by
  simp [insertStatistics, insertStatisticsE, h, recorderOfStore, Except.toOption]

theorem finishUpdate_recorderOfStore (data : FetchData) (dataDate nowMs : Int)
    (store : Store) :
    finishUpdate data dataDate nowMs (recorderOfStore store) =
      .ok ({ values := data.values,
             daily_total := round3 (((validOf data.values).map (fun v => v.value)).sum),
             last_hour := lastHourOf (validOf data.values) nowMs,
             data_date := dataDate, unit := data.unit },
           insertStatistics (validOf data.values) store) := by
  simp only [finishUpdate]
  rw [insertStatisticsE_recorderOfStore]

theorem asyncUpdateData_today (fetch : Int → Except String FetchData)
    (today nowMs : Int) (mid : String) (rec : Recorder) (dT : FetchData)
    (hmid : mid ≠ "") (hf : fetch today = .ok dT) (hv : validOf dT.values ≠ []) :
    asyncUpdateData fetch today nowMs mid rec = finishUpdate dT today nowMs rec := by
  unfold asyncUpdateData
  rw [if_neg hmid, hf]
  simp [List.isEmpty_iff, hv]

theorem asyncUpdateData_fallback (fetch : Int → Except String FetchData)
    (today nowMs : Int) (mid : String) (rec : Recorder) (dT dY : FetchData)
    (hmid : mid ≠ "") (hfT : fetch today = .ok dT)
    (hvT : validOf dT.values = []) (hfY : fetch (today - 1) = .ok dY) :
    asyncUpdateData fetch today nowMs mid rec =
      finishUpdate dY (today - 1) nowMs rec := by
  unfold asyncUpdateData
  rw [if_neg hmid, hfT]
  simp [List.isEmpty_iff, hvT, hfY]

theorem finishUpdate_ok (data : FetchData) (dataDate nowMs : Int) (rec : Recorder)
    (p : Snapshot × InsertResult)
    (h : finishUpdate data dataDate nowMs rec = .ok p) :
    p.1 = { values := data.values,
            daily_total := round3 (((validOf data.values).map (fun v => v.value)).sum),
            last_hour := lastHourOf (validOf data.values) nowMs,
            data_date := dataDate, unit := data.unit } := by
  simp only [finishUpdate] at h
  split at h
  · simp at h
  · injection h with h2
    rw [← h2]

/-!  Claim theorems. -/

/-- C3: for every batch of readings and every store state, running the
backfill a second time with the same batch, after the first run's points
have been upserted, emits exactly the same statistic rows (same hour,
state and sum per point, and the same baseline query): the baseline
lookup anchors to the hour immediately before the batch's earliest
reading, which the first run never writes. -/
theorem backfill_idempotent (vals : List Reading) (store : Store) :
    insertStatistics vals (applyUpsert store (insertStatistics vals store).points)
      = insertStatistics vals store := by
  cases h : sortByDate vals with
  | nil => simp [insertStatistics, insertStatisticsE, h, Except.toOption]
  | cons v0 rest =>
    rw [insertStatistics_cons vals store v0 rest h]
    have hbase : applyUpsert store
        (buildPoints (v0 :: rest) ((store (hourOf v0.date - 1)).getD 0))
        (hourOf v0.date - 1) = store (hourOf v0.date - 1) := by
      apply applyUpsert_apply_of_not_mem
      rw [buildPoints_map_start]
      intro hmem
      obtain ⟨v, hv, heq⟩ := List.mem_map.mp hmem
      have hmin : v0.date ≤ v.date := sortByDate_head_min vals v0 rest h v hv
      have hm := hourOf_mono hmin
      omega
    rw [insertStatistics_cons vals _ v0 rest h, hbase]

/-- C4: continuity — with a stored row at hour H carrying sum S,
backfilling one reading at hour H+1 with value v emits the single point
(H+1, state = round3 v, sum = round3 (S + v)); and in general the
emitted sums are the spec's running sums, re-rounded to 3 decimals after
every addition, starting from the baseline. -/
theorem backfill_continuity :
    (∀ (store : Store) (H : Int) (S v : ℚ), store H = some S →
      insertStatistics [{ date := 3600000 * (H + 1), value := v, status := 0 }] store =
        { baselineQuery := some H,
          points := [{ start := H + 1, state := round3 v, sum := round3 (S + v) }] })
    ∧ ∀ (l : List Reading) (base : ℚ),
        (buildPoints l base).map (fun p => p.sum) =
          specRunningSums base (l.map (fun v => v.value)) := by
  constructor
  · intro store H S v hS
    have hsort : sortByDate [⟨3600000 * (H + 1), v, 0⟩]
        = [(⟨3600000 * (H + 1), v, 0⟩ : Reading)] := by
      simp [sortByDate, List.mergeSort]
    have hhour : hourOf (3600000 * (H + 1)) = H + 1 :=
      Int.mul_ediv_cancel_left _ (by norm_num)
    rw [insertStatistics_cons _ store _ _ hsort]
    simp only [hhour, Int.add_sub_cancel, hS, Option.getD_some, buildPoints]
  · exact buildPoints_map_sum

/-- Witness for C4 at a concrete store and reading. -/
def storeC4 : Store := fun h => if h = 5 then some 10 else none

theorem backfill_continuity_witness :
    insertStatistics [{ date := 3600000 * (5 + 1), value := 2, status := 0 }] storeC4 =
      { baselineQuery := some 5,
        points := [{ start := 5 + 1, state := round3 2, sum := round3 (10 + 2) }] } :=
  backfill_continuity.1 storeC4 5 10 2 (by simp [storeC4])

/-- C6: when today's fetch yields no valid reading the coordinator falls
back to yesterday — the snapshot's represented date is yesterday and its
values, recomputed total, last-hour scan and backfill are exactly those
of a direct fetch-and-filter of yesterday; and when today's fetch yields
a valid reading, the represented date is today and no second fetch
occurs (the result does not depend on the fetch at any other day). -/
theorem fallback_to_yesterday :
    (∀ (fetch : Int → Except String FetchData) (today nowMs : Int) (mid : String)
        (store : Store) (dT dY : FetchData),
      mid ≠ "" → fetch today = .ok dT → validOf dT.values = [] →
      fetch (today - 1) = .ok dY →
      asyncUpdateData fetch today nowMs mid (recorderOfStore store) =
        .ok ({ values := dY.values,
               daily_total := round3 (((validOf dY.values).map (fun v => v.value)).sum),
               last_hour := lastHourOf (validOf dY.values) nowMs,
               data_date := today - 1, unit := dY.unit },
             insertStatistics (validOf dY.values) store))
    ∧ (∀ (fetch : Int → Except String FetchData) (today nowMs : Int) (mid : String)
        (store : Store) (dT : FetchData),
      mid ≠ "" → fetch today = .ok dT → validOf dT.values ≠ [] →
      asyncUpdateData fetch today nowMs mid (recorderOfStore store) =
        .ok ({ values := dT.values,
               daily_total := round3 (((validOf dT.values).map (fun v => v.value)).sum),
               last_hour := lastHourOf (validOf dT.values) nowMs,
               data_date := today, unit := dT.unit },
             insertStatistics (validOf dT.values) store))
    ∧ (∀ (f g : Int → Except String FetchData) (today nowMs : Int) (mid : String)
        (rec : Recorder) (dT : FetchData),
      f today = .ok dT → g today = .ok dT → validOf dT.values ≠ [] →
      asyncUpdateData f today nowMs mid rec = asyncUpdateData g today nowMs mid rec) := by
  refine ⟨?_, ?_, ?_⟩
  · intro fetch today nowMs mid store dT dY hmid hfT hvT hfY
    rw [asyncUpdateData_fallback fetch today nowMs mid _ dT dY hmid hfT hvT hfY,
      finishUpdate_recorderOfStore]
  · intro fetch today nowMs mid store dT hmid hfT hvT
    rw [asyncUpdateData_today fetch today nowMs mid _ dT hmid hfT hvT,
      finishUpdate_recorderOfStore]
  · intro f g today nowMs mid rec dT hf hg hv
    by_cases hmid : mid = ""
    · unfold asyncUpdateData
      rw [if_pos hmid, if_pos hmid]
    · rw [asyncUpdateData_today f today nowMs mid rec dT hmid hf hv,
        asyncUpdateData_today g today nowMs mid rec dT hmid hg hv]

/-- Witness for C6 on concrete fetches: today empty, yesterday holds one
valid reading. -/
def dEmptyW : FetchData := { values := [⟨0, 3, 1⟩], daily_total := 3, unit := "kWh" }

def dYestW : FetchData := { values := [⟨3600000, 2, 0⟩], daily_total := 2, unit := "kWh" }

def fetchC6 : Int → Except String FetchData :=
  fun d => if d = 5 then .ok dEmptyW else if d = 4 then .ok dYestW else .error "no"

theorem fallback_to_yesterday_witness :
    asyncUpdateData fetchC6 5 7200000 "m" (recorderOfStore emptyStore) =
      .ok ({ values := dYestW.values,
             daily_total := round3 (((validOf dYestW.values).map (fun v => v.value)).sum),
             last_hour := lastHourOf (validOf dYestW.values) 7200000,
             data_date := 5 - 1, unit := dYestW.unit },
           insertStatistics (validOf dYestW.values) emptyStore) :=
  fallback_to_yesterday.1 fetchC6 5 7200000 "m" emptyStore dEmptyW dYestW
    (by simp) (by simp [fetchC6]) (by simp [validOf, dEmptyW])
    (by simp [fetchC6, dYestW])

/-- The reading list of the spec's §8 worked example. -/
def vals7 : List Reading := [⟨0, 1.234, 0⟩, ⟨3600000, 0, 3⟩, ⟨7200000, 2.5, 0⟩]

def fetch7 : Int → Except String FetchData :=
  fun d => if d = 0 then
    .ok { values := vals7, daily_total := round3 ((vals7.map (fun v => v.value)).sum),
          unit := "kWh" }
  else .error "no data"

def snapC7 : Snapshot :=
  { values := vals7, daily_total := 3.734, last_hour := some 2.5,
    data_date := 0, unit := "kWh" }

def irC7 : InsertResult :=
  { baselineQuery := some (-1),
    points := [⟨0, 1.234, 1.234⟩, ⟨2, 2.5, 3.734⟩] }

/-- C7: every successful cycle's `daily_total` is the rounded sum of the
values of exactly the valid (`status == 0`) readings of the values it
snapshots; and on the worked example the provisional hour-1 reading is
excluded from the total and from the backfill, which emits only the two
valid hours with running sums 1.234 and 3.734 from baseline 0. -/
theorem daily_total_from_valid :
    (∀ (fetch : Int → Except String FetchData) (today nowMs : Int) (mid : String)
        (rec : Recorder) (p : Snapshot × InsertResult),
      asyncUpdateData fetch today nowMs mid rec = .ok p →
      p.1.daily_total = round3 (((validOf p.1.values).map (fun v => v.value)).sum))
    ∧ asyncUpdateData fetch7 0 7200000 "m" (recorderOfStore emptyStore) =
        .ok (snapC7, irC7) := by
  constructor
  · intro fetch today nowMs mid rec p h
    unfold asyncUpdateData at h
    split at h
    · simp at h
    · split at h
      · simp at h
      · split at h
        · split at h
          · simp at h
          · rw [finishUpdate_ok _ _ _ _ _ h]
        · rw [finishUpdate_ok _ _ _ _ _ h]
  · simp [asyncUpdateData, vals7, fetch7, validOf, finishUpdate, insertStatisticsE,
      sortByDate, List.mergeSort, recorderOfStore, emptyStore, buildPoints, hourOf,
      lastHourOf, snapC7, irC7, round3, round_eq]
    norm_num

/-- Witness for C7's general conjunct at the worked example. -/
theorem daily_total_from_valid_witness :
    snapC7.daily_total = round3 (((validOf snapC7.values).map (fun v => v.value)).sum) :=
  daily_total_from_valid.1 fetch7 0 7200000 "m" (recorderOfStore emptyStore)
    (snapC7, irC7)
    (by simp [asyncUpdateData, vals7, fetch7, validOf, finishUpdate, insertStatisticsE,
          sortByDate, List.mergeSort, recorderOfStore, emptyStore, buildPoints, hourOf,
          lastHourOf, snapC7, irC7, round3, round_eq]
        norm_num)

/-- C10: a cycle whose valid set is empty after the fallback performs no
baseline query and no upsert — any recorder, even a failing one, is left
untouched and the store unchanged — while the snapshot still succeeds
with `daily_total = 0` and no `last_hour`. -/
theorem empty_valid_frame :
    ∀ (fetch : Int → Except String FetchData) (today nowMs : Int) (mid : String)
      (rec : Recorder) (store : Store) (dT dY : FetchData),
      mid ≠ "" → fetch today = .ok dT → validOf dT.values = [] →
      fetch (today - 1) = .ok dY → validOf dY.values = [] →
      asyncUpdateData fetch today nowMs mid rec =
        .ok ({ values := dY.values, daily_total := 0, last_hour := none,
               data_date := today - 1, unit := dY.unit },
             { baselineQuery := none, points := [] })
      ∧ applyUpsert store
          ({ baselineQuery := none, points := [] } : InsertResult).points = store := by
  intro fetch today nowMs mid rec store dT dY hmid hfT hvT hfY hvY
  constructor
  · rw [asyncUpdateData_fallback fetch today nowMs mid rec dT dY hmid hfT hvT hfY]
    simp only [finishUpdate, hvY]
    simp [insertStatisticsE, sortByDate, lastHourOf]
    norm_num [round3]
  · rfl

/-- Witness for C10 on a concrete fetch where both days carry only
provisional readings. -/
def fetchC10 : Int → Except String FetchData :=
  fun d => if d = 9 then .ok { values := [⟨0, 3, 1⟩], daily_total := 3, unit := "kWh" }
    else if d = 8 then .ok { values := [⟨0, 4, 3⟩], daily_total := 4, unit := "kWh" }
    else .error "no data"

def recC10 : Recorder := { query := fun _ => .error "unreachable", upsertError := some "unreachable" }

theorem empty_valid_frame_witness :
    asyncUpdateData fetchC10 9 0 "m" recC10 =
      .ok ({ values := [⟨0, 4, 3⟩], daily_total := 0, last_hour := none,
             data_date := 9 - 1, unit := "kWh" },
           { baselineQuery := none, points := [] })
    ∧ applyUpsert emptyStore
        ({ baselineQuery := none, points := [] } : InsertResult).points = emptyStore :=
  empty_valid_frame fetchC10 9 0 "m" recC10 emptyStore
    { values := [⟨0, 3, 1⟩], daily_total := 3, unit := "kWh" }
    { values := [⟨0, 4, 3⟩], daily_total := 4, unit := "kWh" }
    (by simp) (by simp [fetchC10]) (by simp [validOf])
    (by simp [fetchC10]) (by simp [validOf])

/-- Counterexample to C1 as stated: a cycle whose fetch and filtering
succeed (one valid reading) but whose statistics step raises, fails the
whole cycle instead of returning the computed snapshot — line 88 of
coordinator.py has no `try` around `_insert_statistics`. -/
def recBadC1 : Recorder := { query := fun _ => .error "store down", upsertError := none }

def fetchC1 : Int → Except String FetchData :=
  fun _ => .ok { values := [⟨0, 1, 0⟩], daily_total := 1, unit := "kWh" }

theorem backfill_error_fails_cycle_cex :
    asyncUpdateData fetchC1 0 0 "m" recBadC1 = .error "store down"
    ∧ (asyncUpdateData fetchC1 0 0 "m" recBadC1).isOk = false := by
  constructor <;>
    simp [asyncUpdateData, fetchC1, validOf, finishUpdate, insertStatisticsE,
      sortByDate, List.mergeSort, recBadC1, Except.isOk, Except.toBool]

/-- C1 amended: a statistics-backfill error is not isolated — it
propagates out of the sync and the cycle fails with that error instead
of returning the computed snapshot. -/
theorem backfill_error_fails_cycle :
    ∀ (fetch : Int → Except String FetchData) (today nowMs : Int) (mid : String)
      (rec : Recorder) (dT : FetchData) (e : String),
      mid ≠ "" → fetch today = .ok dT → validOf dT.values ≠ [] →
      insertStatisticsE (validOf dT.values) rec = .error e →
      asyncUpdateData fetch today nowMs mid rec = .error e := by
  intro fetch today nowMs mid rec dT e hmid hf hv hins
  rw [asyncUpdateData_today fetch today nowMs mid rec dT hmid hf hv]
  simp only [finishUpdate, hins]

/-- Witness for C1's amended theorem at the counterexample input. -/
theorem backfill_error_fails_cycle_witness :
    asyncUpdateData fetchC1 0 0 "m" recBadC1 = .error "store down" :=
  backfill_error_fails_cycle fetchC1 0 0 "m" recBadC1
    { values := [⟨0, 1, 0⟩], daily_total := 1, unit := "kWh" } "store down"
    (by simp) (by simp [fetchC1]) (by simp [validOf])
    (by simp [insertStatisticsE, validOf, sortByDate, List.mergeSort, recBadC1])

/-- Counterexample to C5 as stated: the `last_hour` scan walks the valid
readings in the remote-supplied list order, without re-sorting — with an
out-of-order list (hour 2 listed before hour 1, both in the past) it
returns the last-listed reading's value 7, not the chronologically
latest one's value 5. -/
def vals5 : List Reading := [⟨7200000, 5, 0⟩, ⟨3600000, 7, 0⟩]

def fetch5 : Int → Except String FetchData :=
  fun d => if d = 0 then .ok { values := vals5, daily_total := 12, unit := "kWh" }
  else .error "no data"

theorem last_hour_unsorted_cex :
    (asyncUpdateData fetch5 0 10800000 "m" (recorderOfStore emptyStore)).toOption.map
        (fun p => p.1.last_hour) = some (some 7)
    ∧ specLastHour vals5 10800000 = some 5
    ∧ (some (7 : ℚ)) ≠ some 5 := by
  refine ⟨?_, ?_, by norm_num⟩
  · simp [asyncUpdateData, vals5, fetch5, validOf, finishUpdate, insertStatisticsE,
      sortByDate, List.mergeSort, recorderOfStore, emptyStore, buildPoints, hourOf,
      lastHourOf, Except.toOption]
  · simp [specLastHour, vals5, validOf, sortByDate, List.mergeSort]

/-- C5 amended: `last_hour` is the value of the last-listed valid
reading with timestamp ≤ now (the scan trusts the remote's list order);
when the valid readings arrive sorted ascending by timestamp — the
remote's normal order — it therefore equals the value of the
chronologically latest valid reading with timestamp ≤ now, and is
absent when no valid reading is ≤ now. -/
theorem last_hour_amended :
    (∀ (valid : List Reading) (nowMs : Int),
      lastHourOf valid nowMs =
        ((valid.filter (fun v => v.date ≤ nowMs)).getLast?).map (fun v => v.value))
    ∧ ∀ (fetch : Int → Except String FetchData) (today nowMs : Int) (mid : String)
        (store : Store) (dT : FetchData),
      mid ≠ "" → fetch today = .ok dT → validOf dT.values ≠ [] →
      List.Pairwise (fun a b : Reading => a.date ≤ b.date) (validOf dT.values) →
      (asyncUpdateData fetch today nowMs mid (recorderOfStore store)).toOption.map
          (fun p => p.1.last_hour) = some (specLastHour dT.values nowMs) := by
  have key : ∀ (valid : List Reading) (nowMs : Int),
      lastHourOf valid nowMs =
        ((valid.filter (fun v => v.date ≤ nowMs)).getLast?).map (fun v => v.value) := by
    intro valid nowMs
    unfold lastHourOf
    rw [find?_reverse_eq_getLast?_filter]
  refine ⟨key, ?_⟩
  intro fetch today nowMs mid store dT hmid hf hv hsort
  rw [asyncUpdateData_today fetch today nowMs mid _ dT hmid hf hv,
    finishUpdate_recorderOfStore]
  have hss : sortByDate (validOf dT.values) = validOf dT.values :=
    List.mergeSort_of_sorted (hsort.imp (fun hab => by simpa using hab))
  simp only [Except.toOption, Option.map_some']
  rw [key, specLastHour, hss]

/-- Witness for C5's amended theorem on a sorted valid list. -/
def valsC5w : List Reading := [⟨3600000, 7, 0⟩, ⟨7200000, 5, 0⟩]

def fetchC5w : Int → Except String FetchData :=
  fun d => if d = 0 then .ok { values := valsC5w, daily_total := 12, unit := "kWh" }
  else .error "no data"

theorem last_hour_amended_witness :
    (asyncUpdateData fetchC5w 0 10800000 "m" (recorderOfStore emptyStore)).toOption.map
        (fun p => p.1.last_hour) = some (specLastHour valsC5w 10800000) :=
  last_hour_amended.2 fetchC5w 0 10800000 "m" emptyStore
    { values := valsC5w, daily_total := 12, unit := "kWh" }
    (by simp) (by simp [fetchC5w]) (by simp [validOf, valsC5w])
    (by simp [validOf, valsC5w])

theorem setupMeterContext_cases (env : LoginEnv) (st : ClientState) :
    ((setupMeterContext env st).1.isOk = false ∧
      ((setupMeterContext env st).2).meter_id = st.meter_id) ∨
    ((setupMeterContext env st).1.isOk = true ∧ ∃ m, env.stepMeterId = .ok m ∧
      ((setupMeterContext env st).2).meter_id = some (m.getD "")) := by
  unfold setupMeterContext
  cases ha : env.stepAccounts with
  | error e => left; exact ⟨rfl, rfl⟩
  | ok accounts =>
    cases accounts with
    | nil => left; exact ⟨rfl, rfl⟩
    | cons a arest =>
      cases hm : env.stepMeterPoints with
      | error e => left; exact ⟨rfl, rfl⟩
      | ok contracts =>
        cases contracts with
        | nil => left; exact ⟨rfl, rfl⟩
        | cons c crest =>
          cases hi : env.stepMeterId with
          | error e => left; exact ⟨rfl, rfl⟩
          | ok mid => right; exact ⟨rfl, mid, rfl, rfl⟩

theorem login_cases (env : LoginEnv) (st : ClientState) :
    ((login env st).1.isOk = false ∧
      ((login env st).2).meter_id = st.meter_id) ∨
    ((login env st).1.isOk = true ∧ ∃ m, env.stepMeterId = .ok m ∧
      ((login env st).2).meter_id = some (m.getD "")) := by
  unfold login
  cases h1 : env.step1 with
  | some e => left; exact ⟨rfl, rfl⟩
  | none =>
    cases h2 : env.step2 with
    | transportError e => left; exact ⟨rfl, rfl⟩
    | badStatus c => left; exact ⟨rfl, rfl⟩
    | ok mt msg d =>
      dsimp only
      by_cases hmt : mt = some 0
      · rw [if_pos hmt]
        cases h3 : env.step3 with
        | some e => left; exact ⟨rfl, rfl⟩
        | none => exact setupMeterContext_cases env { st with token := d }
      · rw [if_neg hmt]; left; exact ⟨rfl, rfl⟩

/-- Counterexample to C8 as stated: a login whose validation POST
(step 3) fails leaves the client with the step-2 token already
committed — the state is not rolled back to what it was before the
call. -/
def envC8 : LoginEnv :=
  { step1 := none, step2 := .ok (some 0) none (some "tok"), step3 := some "net down",
    stepAccounts := .ok [], stepMeterPoints := .ok [], stepMeterId := .ok none }

theorem login_not_atomic_cex :
    (login envC8 initialState).1.isOk = false
    ∧ ((login envC8 initialState).2).token = some "tok"
    ∧ initialState.token = none
    ∧ (login envC8 initialState).2 ≠ initialState := by
  refine ⟨?_, ?_, rfl, ?_⟩ <;>
    simp [login, envC8, initialState, setupMeterContext, Except.isOk, Except.toBool]

/-- C8 amended: `login` is not field-atomic.  A failure in step 1 or
step 2 leaves the state unchanged, but a later failure keeps every field
a completed earlier step committed: the token after step 2, the
contract-account id after the accounts call, the meter number after the
meter-points call; only `meter_id` is assigned solely on full success
and is unchanged on every failure. -/
theorem login_partial_commit :
    (∀ (env : LoginEnv) (st : ClientState) (e : String), env.step1 = some e →
      login env st = (.error ("Failed to obtain session: " ++ e), st))
    ∧ (∀ (env : LoginEnv) (st : ClientState) (e : String), env.step1 = none →
      env.step2 = .transportError e → (login env st).2 = st)
    ∧ (∀ (env : LoginEnv) (st : ClientState) (c : Nat), env.step1 = none →
      env.step2 = .badStatus c → (login env st).2 = st)
    ∧ (∀ (env : LoginEnv) (st : ClientState) (mt : Option Int)
        (msg d : Option String), env.step1 = none →
      env.step2 = .ok mt msg d → mt ≠ some 0 → (login env st).2 = st)
    ∧ (∀ (env : LoginEnv) (st : ClientState) (msg d : Option String) (e : String),
      env.step1 = none → env.step2 = .ok (some 0) msg d → env.step3 = some e →
      (login env st).2 = { st with token := d })
    ∧ (∀ (env : LoginEnv) (st : ClientState) (msg d : Option String) (e : String),
      env.step1 = none → env.step2 = .ok (some 0) msg d → env.step3 = none →
      env.stepAccounts = .error e → (login env st).2 = { st with token := d })
    ∧ (∀ (env : LoginEnv) (st : ClientState) (msg d : Option String),
      env.step1 = none → env.step2 = .ok (some 0) msg d → env.step3 = none →
      env.stepAccounts = .ok [] → (login env st).2 = { st with token := d })
    ∧ (∀ (env : LoginEnv) (st : ClientState) (msg d a : Option String)
        (l : List (Option String)) (e : String),
      env.step1 = none → env.step2 = .ok (some 0) msg d → env.step3 = none →
      env.stepAccounts = .ok (a :: l) → env.stepMeterPoints = .error e →
      (login env st).2 = { st with token := d, contract_account_id := a })
    ∧ (∀ (env : LoginEnv) (st : ClientState) (msg d a : Option String)
        (l : List (Option String)),
      env.step1 = none → env.step2 = .ok (some 0) msg d → env.step3 = none →
      env.stepAccounts = .ok (a :: l) → env.stepMeterPoints = .ok [] →
      (login env st).2 = { st with token := d, contract_account_id := a })
    ∧ (∀ (env : LoginEnv) (st : ClientState) (msg d a c : Option String)
        (l l2 : List (Option String)) (e : String),
      env.step1 = none → env.step2 = .ok (some 0) msg d → env.step3 = none →
      env.stepAccounts = .ok (a :: l) → env.stepMeterPoints = .ok (c :: l2) →
      env.stepMeterId = .error e →
      (login env st).2 = { st with token := d, contract_account_id := a,
                                   meter_number := c })
    ∧ (∀ (env : LoginEnv) (st : ClientState), (login env st).1.isOk = false →
      ((login env st).2).meter_id = st.meter_id) := by
  refine ⟨?_, ?_, ?_, ?_, ?_, ?_, ?_, ?_, ?_, ?_, ?_⟩
  · intro env st e h1
    simp [login, h1]
  · intro env st e h1 h2
    simp [login, h1, h2]
  · intro env st c h1 h2
    simp [login, h1, h2]
  · intro env st mt msg d h1 h2 hmt
    simp [login, h1, h2, hmt]
  · intro env st msg d e h1 h2 h3
    simp [login, h1, h2, h3]
  · intro env st msg d e h1 h2 h3 ha
    simp [login, h1, h2, h3, setupMeterContext, ha]
  · intro env st msg d h1 h2 h3 ha
    simp [login, h1, h2, h3, setupMeterContext, ha]
  · intro env st msg d a l e h1 h2 h3 ha hm
    simp [login, h1, h2, h3, setupMeterContext, ha, hm]
  · intro env st msg d a l h1 h2 h3 ha hm
    simp [login, h1, h2, h3, setupMeterContext, ha, hm]
  · intro env st msg d a c l l2 e h1 h2 h3 ha hm hi
    simp [login, h1, h2, h3, setupMeterContext, ha, hm, hi]
  · intro env st h
    rcases login_cases env st with ⟨_, hm⟩ | ⟨hok, _⟩
    · exact hm
    · rw [h] at hok
      cases hok


/-- Witness for C8's amended theorem: instantiates the step-3-failure
conjunct at the counterexample environment. -/
theorem login_partial_commit_witness :
    (login envC8 initialState).2 = { initialState with token := some "tok" } :=
  login_partial_commit.2.2.2.2.1 envC8 initialState none (some "tok") "net down"
    rfl rfl rfl


/-- Counterexample to C9 as stated: a client that has already discovered
meter id "5" runs a later successful login whose final warm-up step
returns "7" — `_meter_id` is unconditionally overwritten. -/
def envC9 : LoginEnv :=
  { step1 := none, step2 := .ok (some 0) none (some "tok"), step3 := none,
    stepAccounts := .ok [some "ca"], stepMeterPoints := .ok [some "mp"],
    stepMeterId := .ok (some "7") }

def stC9 : ClientState :=
  { token := some "t", contract_account_id := some "ca",
    meter_number := some "mp", meter_id := some "5" }

theorem meter_id_changes_cex :
    (login envC9 stC9).1.isOk = true
    ∧ stC9.meter_id = some "5"
    ∧ ((login envC9 stC9).2).meter_id = some "7"
    ∧ ((login envC9 stC9).2).meter_id ≠ stC9.meter_id := by
  refine ⟨?_, rfl, ?_, ?_⟩ <;>
    simp [login, envC9, stC9, setupMeterContext, Except.isOk, Except.toBool]

/-- C9 amended: `meter_id` is rewritten only by the final warm-up step of
a fully successful `login` (with whatever id that login's server response
carries); every failed login leaves it unchanged, a `get_daily_data` call
changes client state only through its single internal re-login, and when
every later login returns the id already held, `meter_id` never
changes. -/
theorem meter_id_overwritten :
    (∀ (env : LoginEnv) (st : ClientState), (login env st).1.isOk = false →
      ((login env st).2).meter_id = st.meter_id)
    ∧ (∀ (env : LoginEnv) (st : ClientState) (m : Option String),
      env.stepMeterId = .ok m → (login env st).1.isOk = true →
      ((login env st).2).meter_id = some (m.getD ""))
    ∧ (∀ (env : LoginEnv) (st : ClientState) (s : String),
      st.meter_id = some s → env.stepMeterId = .ok (some s) →
      ((login env st).2).meter_id = some s)
    ∧ (∀ (env : DailyEnv) (st : ClientState),
      ((getDailyData env st).1).2 = st
      ∨ ((getDailyData env st).1).2 = (login env.loginEnv st).2) := by
  have key : ∀ (env : LoginEnv) (st : ClientState) (m : Option String),
      env.stepMeterId = .ok m → (login env st).1.isOk = true →
      ((login env st).2).meter_id = some (m.getD "") := by
    intro env st m hm hok
    rcases login_cases env st with ⟨hf, _⟩ | ⟨_, m2, hm2, heq⟩
    · rw [hok] at hf
      cases hf
    · rw [hm] at hm2
      injection hm2 with h2
      rw [heq, h2]
  have keyFail : ∀ (env : LoginEnv) (st : ClientState),
      (login env st).1.isOk = false → ((login env st).2).meter_id = st.meter_id := by
    intro env st h
    rcases login_cases env st with ⟨_, hm⟩ | ⟨hok, _⟩
    · exact hm
    · rw [h] at hok
      cases hok
  refine ⟨keyFail, key, ?_, ?_⟩
  · intro env st s hs hi
    cases hok : (login env st).1.isOk with
    | false => rw [keyFail env st hok, hs]
    | true =>
        rw [key env st (some s) hi hok]
        rfl
  · intro env st
    unfold getDailyData
    cases hp : parseHttp "" env.req1 with
    | error e => left; rfl
    | ok body1 =>
      dsimp only
      cases hb : body1.bind (fun b => b.data) with
      | some inner => left; rfl
      | none =>
        dsimp only
        cases hex : expirySignal (expiryMsgText body1) with
        | false => simp only [Bool.false_eq_true, if_false]; left; trivial
        | true =>
          simp only [if_true]
          rcases hl : login env.loginEnv st with ⟨r, st1⟩
          have hst1 : st1 = (login env.loginEnv st).2 := by rw [hl]
          cases r with
          | error e => dsimp only; right; rw [hst1]
          | ok u =>
            dsimp only
            cases hq : parseHttp " after re-auth" env.req2 with
            | error e => dsimp only; right; rw [hst1]
            | ok body2 =>
              dsimp only
              cases hb2 : body2.bind (fun b => b.data) with
              | some inner => dsimp only; right; rw [hst1]
              | none => dsimp only; right; rw [hst1]

/-- Witness for C9's amended theorem: a login that re-returns the held id
leaves `meter_id` unchanged. -/
theorem meter_id_overwritten_witness :
    ((login envC9 { stC9 with meter_id := some "7" }).2).meter_id = some "7" :=
  meter_id_overwritten.2.2.1 envC9 { stC9 with meter_id := some "7" } "7" rfl rfl


theorem parseHttp_ok (tag : String) (body : Option ApiBody) :
    parseHttp tag (.ok body) = .ok body := rfl

/-- C2: a `get_daily_data` call never performs more than one internal
login or more than two data requests; and when the first response has no
payload and its message matches the expiry heuristic, a successful
internal login is followed by exactly one replay — if the replay's
response also lacks a payload, the call fails with the no-data error
carrying the replay's remote message. -/
theorem reauth_once :
    (∀ (env : DailyEnv) (st : ClientState),
      ((getDailyData env st).2).logins ≤ 1 ∧ ((getDailyData env st).2).requests ≤ 2)
    ∧ ∀ (env : DailyEnv) (st : ClientState) (body1 : Option ApiBody),
        env.req1 = .ok body1 → body1.bind (fun b => b.data) = none →
        expirySignal (expiryMsgText body1) = true →
        (login env.loginEnv st).1 = .ok () →
        (getDailyData env st).2 = { logins := 1, requests := 2 }
        ∧ ∀ body2 : Option ApiBody, env.req2 = .ok body2 →
            body2.bind (fun b => b.data) = none →
            ((getDailyData env st).1).1 =
              .error ("API returned no data: " ++ noDataMsg body2) := by
  constructor
  · intro env st
    unfold getDailyData
    constructor
    all_goals
      repeat' split
      all_goals simp
  · intro env st body1 h1 hb hex hl
    unfold getDailyData
    rw [h1, parseHttp_ok]
    dsimp only
    rw [hb]
    dsimp only
    rw [hex]
    simp only [if_true]
    rcases hlp : login env.loginEnv st with ⟨r, st1⟩
    rw [hlp] at hl
    dsimp only at hl
    cases r with
    | error e => exact absurd hl (by simp)
    | ok u =>
      dsimp only
      constructor
      · cases hq : parseHttp " after re-auth" env.req2 with
        | error e => rfl
        | ok body2 =>
          dsimp only
          cases hb2 : body2.bind (fun b => b.data) with
          | some inner => rfl
          | none => rfl
      · intro body2 h2 hb2
        rw [h2, parseHttp_ok]
        dsimp only
        rw [hb2]

/-- A fully successful login environment, used by witnesses. -/
def envOK : LoginEnv :=
  { step1 := none, step2 := .ok (some 0) none (some "tok"), step3 := none,
    stepAccounts := .ok [some "ca"], stepMeterPoints := .ok [some "mp"],
    stepMeterId := .ok (some "42") }

def bodyExpired : Option ApiBody :=
  some { data := none, frontEndMessage := some "Not logged in" }

def bodyNoData : Option ApiBody :=
  some { data := none, frontEndMessage := some "still broken" }

def envC2 : DailyEnv := { req1 := .ok bodyExpired, loginEnv := envOK, req2 := .ok bodyNoData }

/-- Witness for C2 at a concrete expiry-then-still-no-payload run. -/
theorem reauth_once_witness :
    (getDailyData envC2 initialState).2 = { logins := 1, requests := 2 }
    ∧ ((getDailyData envC2 initialState).1).1 =
        .error ("API returned no data: " ++ noDataMsg bodyNoData) := by
  have h := reauth_once.2 envC2 initialState bodyExpired rfl rfl (by decide) rfl
  exact ⟨h.1, h.2 bodyNoData rfl rfl⟩

end Wwz
